import Mathlib

/-!
Shallow embedding of the Flibon/projector-backend motion-media controller.

The repository has two variants of each component; the spec follows the
debounced variant in `src/motion_media_controller.py`, with
`src/esp32_serial.py`, `src/media_controller.py` and `src/api_service.py`
as the second (split-file) variant.  Both `MediaController.play_video /
display_image / close_video / close_image` bodies are line-for-line the
same in the two variants (only the spawned command differs), so a single
embedding covers both.

Modelling conventions:
  * an external process handle (`subprocess.Popen` result) is an abstract
    `Option Nat` (the pid);
  * the outside world's choices - whether `os.killpg` raises, whether
    `subprocess.Popen` raises, which pid a spawn gets - are explicit
    Boolean / Nat parameters of each operation;
  * each operation also returns the list of externally visible actions it
    performed (`killGroup` = `os.killpg(..., SIGTERM)` delivered,
    `spawnVideo` / `spawnImage` = a successful `subprocess.Popen`);
  * Python exceptions that the source catches with `try/except` are
    modelled by the corresponding no-change branch (the `except` body only
    logs), so every embedded operation is a total function - mirroring
    that no exception escapes these methods.
-/

/-- State of `MediaController` (`src/motion_media_controller.py:157-269`,
`src/media_controller.py:12-101`): the two process handles and the two
mode flags. -/
structure MediaState where
  video_process : Option Nat
  image_process : Option Nat
  is_video_playing : Bool
  is_image_displayed : Bool
deriving DecidableEq, Repr

/-- Externally visible actions of a `MediaController` operation. -/
inductive MediaEvent
  | killGroup (pid : Nat)
  | spawnVideo (pid : Nat)
  | spawnImage (pid : Nat)
deriving DecidableEq, Repr

/-- `MediaController.__init__`: no process, no mode active. -/
def initMedia : MediaState :=
  { video_process := none, image_process := none,
    is_video_playing := false, is_image_displayed := false }

/-- `MediaController.close_video` (`motion_media_controller.py:241-251`).
`killOk` says whether `os.killpg` succeeds; when it raises, the `except`
branch leaves every field unchanged (the assignments after `os.killpg`
are never reached). -/
def close_video (killOk : Bool) (s : MediaState) : MediaState × List MediaEvent :=
  if s.is_video_playing && s.video_process.isSome then
    if killOk then
      ({ s with video_process := none, is_video_playing := false },
        [MediaEvent.killGroup (s.video_process.getD 0)])
    else (s, [])
  else (s, [])

/-- `MediaController.close_image` (`motion_media_controller.py:253-263`). -/
def close_image (killOk : Bool) (s : MediaState) : MediaState × List MediaEvent :=
  if s.is_image_displayed && s.image_process.isSome then
    if killOk then
      ({ s with image_process := none, is_image_displayed := false },
        [MediaEvent.killGroup (s.image_process.getD 0)])
    else (s, [])
  else (s, [])

/-- `MediaController.play_video` (`motion_media_controller.py:184-212`,
`media_controller.py:22-45`): first `close_image()`, then the
already-playing early return, then the guarded spawn.  `spawnOk` says
whether `subprocess.Popen` succeeds; when it raises, the `except` branch
leaves `video_process` and `is_video_playing` unchanged. -/
def play_video (killOk spawnOk : Bool) (pid : Nat) (s : MediaState) :
    MediaState × List MediaEvent :=
  let r := close_image killOk s
  if r.1.is_video_playing && r.1.video_process.isSome then r
  else if spawnOk then
    ({ r.1 with video_process := some pid, is_video_playing := true },
      r.2 ++ [MediaEvent.spawnVideo pid])
  else r

/-- `MediaController.display_image` (`motion_media_controller.py:214-239`,
`media_controller.py:47-69`): first `close_video()`, then the
already-displayed early return, then the guarded spawn. -/
def display_image (killOk spawnOk : Bool) (pid : Nat) (s : MediaState) :
    MediaState × List MediaEvent :=
  let r := close_video killOk s
  if r.1.is_image_displayed && r.1.image_process.isSome then r
  else if spawnOk then
    ({ r.1 with image_process := some pid, is_image_displayed := true },
      r.2 ++ [MediaEvent.spawnImage pid])
  else r

/-- `MediaController.cleanup` (`motion_media_controller.py:265-269`):
`close_video()` then `close_image()`. -/
def cleanup (killOkV killOkI : Bool) (s : MediaState) : MediaState × List MediaEvent :=
  let r1 := close_video killOkV s
  let r2 := close_image killOkI r1.1
  (r2.1, r1.2 ++ r2.2)

/-- One public call into the controller, together with the environment's
choices for that call. -/
inductive MediaOp
  | opPlayVideo (killOk spawnOk : Bool) (pid : Nat)
  | opDisplayImage (killOk spawnOk : Bool) (pid : Nat)
  | opCleanup (killOkV killOkI : Bool)
deriving DecidableEq, Repr

/-- Dispatch one `MediaOp`. -/
def stepOp (op : MediaOp) (s : MediaState) : MediaState × List MediaEvent :=
  match op with
  | .opPlayVideo k sp pid => play_video k sp pid s
  | .opDisplayImage k sp pid => display_image k sp pid s
  | .opCleanup kv ki => cleanup kv ki s

/-- Run a sequence of controller calls, concatenating their action traces. -/
def runOps (s : MediaState) : List MediaOp → MediaState × List MediaEvent
  | [] => (s, [])
  | op :: rest =>
    let r := stepOp op s
    let r2 := runOps r.1 rest
    (r2.1, r.2 ++ r2.2)

/-- Every state visited while running a sequence of calls (initial state
included). -/
def statesAlong (s : MediaState) : List MediaOp → List MediaState
  | [] => [s]
  | op :: rest => s :: statesAlong (stepOp op s).1 rest

/-- Whether every `os.killpg` performed by this call succeeds. -/
def killsOk : MediaOp → Bool
  | .opPlayVideo k _ _ => k
  | .opDisplayImage k _ _ => k
  | .opCleanup kv ki => kv && ki

/-- Mode coherence of a controller state: each mode flag agrees with its
handle being held, and the two modes are never active together. -/
def exclusive (s : MediaState) : Bool :=
  (s.is_video_playing == s.video_process.isSome) &&
  (s.is_image_displayed == s.image_process.isSome) &&
  !(s.is_video_playing && s.is_image_displayed)

/-- Whether an action is a successful spawn. -/
def isSpawn : MediaEvent → Bool
  | .killGroup _ => false
  | .spawnVideo _ => true
  | .spawnImage _ => true

/-- Whether an action is a process-group kill. -/
def isKill : MediaEvent → Bool
  | .killGroup _ => true
  | .spawnVideo _ => false
  | .spawnImage _ => false

/-- A trace in which every kill precedes every spawn. -/
def killsThenSpawns : List MediaEvent → Bool
  | [] => true
  | MediaEvent.killGroup _ :: rest => killsThenSpawns rest
  | e :: rest => isSpawn e && rest.all isSpawn

lemma exclusive_step (op : MediaOp) (s : MediaState)
    (hk : killsOk op = true) (hs : exclusive s = true) :
    exclusive (stepOp op s).1 = true := by
  rcases s with ⟨vp, ip, vb, ib⟩
  cases op with
  | opPlayVideo k sp pid =>
    simp only [killsOk] at hk
    subst hk
    rcases vp with _ | vpid <;> rcases ip with _ | ipid <;>
      rcases vb with _ | _ <;> rcases ib with _ | _ <;> rcases sp with _ | _ <;>
      simp_all [stepOp, play_video, close_image, exclusive]
  | opDisplayImage k sp pid =>
    simp only [killsOk] at hk
    subst hk
    rcases vp with _ | vpid <;> rcases ip with _ | ipid <;>
      rcases vb with _ | _ <;> rcases ib with _ | _ <;> rcases sp with _ | _ <;>
      simp_all [stepOp, display_image, close_video, exclusive]
  | opCleanup kv ki =>
    simp only [killsOk, Bool.and_eq_true] at hk
    obtain ⟨rfl, rfl⟩ := hk
    rcases vp with _ | vpid <;> rcases ip with _ | ipid <;>
      rcases vb with _ | _ <;> rcases ib with _ | _ <;>
      simp_all [stepOp, cleanup, close_video, close_image, exclusive]

lemma exclusive_statesAlong (ops : List MediaOp) (s : MediaState)
    (hk : ∀ op ∈ ops, killsOk op = true) (hs : exclusive s = true) :
    ∀ t ∈ statesAlong s ops, exclusive t = true := by
  induction ops generalizing s with
  | nil =>
    intro t ht
    simp only [statesAlong, List.mem_singleton] at ht
    exact ht ▸ hs
  | cons op rest ih =>
    intro t ht
    simp only [statesAlong, List.mem_cons] at ht
    rcases ht with rfl | ht
    · exact hs
    · exact ih (stepOp op s).1
        (fun o ho => hk o (List.mem_cons_of_mem _ ho))
        (exclusive_step op s (hk op (List.mem_cons_self _ _)) hs) t ht

lemma close_video_trace_kills (killOk : Bool) (s : MediaState) :
    (close_video killOk s).2.all isKill = true := by
  rcases s with ⟨vp, ip, vb, ib⟩
  rcases vp with _ | vpid <;> rcases vb with _ | _ <;> rcases killOk with _ | _ <;>
    simp [close_video, isKill]

lemma close_image_trace_kills (killOk : Bool) (s : MediaState) :
    (close_image killOk s).2.all isKill = true := by
  rcases s with ⟨vp, ip, vb, ib⟩
  rcases ip with _ | ipid <;> rcases ib with _ | _ <;> rcases killOk with _ | _ <;>
    simp [close_image, isKill]

lemma killsThenSpawns_of_kills_app_spawns (l₁ l₂ : List MediaEvent)
    (h₁ : l₁.all isKill = true) (h₂ : l₂.all isSpawn = true) :
    killsThenSpawns (l₁ ++ l₂) = true := by
  induction l₁ with
  | nil =>
    cases l₂ with
    | nil => rfl
    | cons e rest =>
      simp only [List.all_cons, Bool.and_eq_true] at h₂
      cases e <;> simp_all [killsThenSpawns, isSpawn]
  | cons e rest ih =>
    simp only [List.all_cons, Bool.and_eq_true] at h₁
    cases e <;> simp_all [killsThenSpawns, isKill]

lemma killsThenSpawns_of_kills (l : List MediaEvent)
    (h : l.all isKill = true) : killsThenSpawns l = true := by
  induction l with
  | nil => rfl
  | cons e rest ih =>
    simp only [List.all_cons, Bool.and_eq_true] at h
    cases e <;> simp_all [killsThenSpawns, isKill]

lemma play_video_trace_shape (k sp : Bool) (pid : Nat) (s : MediaState) :
    (play_video k sp pid s).2 = (close_image k s).2 ∨
    (play_video k sp pid s).2 = (close_image k s).2 ++ [MediaEvent.spawnVideo pid] := by
  simp only [play_video]
  split
  · exact Or.inl rfl
  · split
    · exact Or.inr rfl
    · exact Or.inl rfl

lemma display_image_trace_shape (k sp : Bool) (pid : Nat) (s : MediaState) :
    (display_image k sp pid s).2 = (close_video k s).2 ∨
    (display_image k sp pid s).2 = (close_video k s).2 ++ [MediaEvent.spawnImage pid] := by
  simp only [display_image]
  split
  · exact Or.inl rfl
  · split
    · exact Or.inr rfl
    · exact Or.inl rfl

lemma stepOp_trace_ordered (op : MediaOp) (s : MediaState) :
    killsThenSpawns (stepOp op s).2 = true := by
  rcases op with ⟨k, sp, pid⟩ | ⟨k, sp, pid⟩ | ⟨kv, ki⟩
  · show killsThenSpawns (play_video k sp pid s).2 = true
    rcases play_video_trace_shape k sp pid s with h | h <;> rw [h]
    · exact killsThenSpawns_of_kills _ (close_image_trace_kills k s)
    · exact killsThenSpawns_of_kills_app_spawns _ _
        (close_image_trace_kills k s) (by simp [isSpawn])
  · show killsThenSpawns (display_image k sp pid s).2 = true
    rcases display_image_trace_shape k sp pid s with h | h <;> rw [h]
    · exact killsThenSpawns_of_kills _ (close_video_trace_kills k s)
    · exact killsThenSpawns_of_kills_app_spawns _ _
        (close_video_trace_kills k s) (by simp [isSpawn])
  · show killsThenSpawns (cleanup kv ki s).2 = true
    refine killsThenSpawns_of_kills _ ?_
    simp [cleanup, List.all_append, close_video_trace_kills kv s,
      close_image_trace_kills ki (close_video kv s).1]

lemma exclusive_not_both (t : MediaState) (h : exclusive t = true) :
    ¬(t.is_video_playing = true ∧ t.is_image_displayed = true) ∧
    ¬(t.video_process.isSome = true ∧ t.image_process.isSome = true) := by
  rcases t with ⟨vp, ip, vb, ib⟩
  simp only [exclusive, Bool.and_eq_true, beq_iff_eq, Bool.not_eq_true'] at h
  obtain ⟨⟨hv, hi⟩, hn⟩ := h
  constructor <;> intro hb <;> simp_all

/-- C2 (counterexample to the claim as stated): when a process-group
terminate raises (for example because the spawned viewer already exited),
`close_image` catches the exception and leaves the stale flag and handle
in place, and the subsequent `play_video` spawn then makes both modes
active at once.  Concretely: `display_image` (all succeeding), then
`play_video` whose `os.killpg` fails, ends with both flags true and both
handles held. -/
theorem c2_counterexample_kill_failure :
    (runOps initMedia [MediaOp.opDisplayImage true true 1,
        MediaOp.opPlayVideo false true 2]).1.is_video_playing = true ∧
    (runOps initMedia [MediaOp.opDisplayImage true true 1,
        MediaOp.opPlayVideo false true 2]).1.is_image_displayed = true ∧
    (runOps initMedia [MediaOp.opDisplayImage true true 1,
        MediaOp.opPlayVideo false true 2]).1.video_process.isSome = true ∧
    (runOps initMedia [MediaOp.opDisplayImage true true 1,
        MediaOp.opPlayVideo false true 2]).1.image_process.isSome = true := by
  decide

/-- C2 (amended): for every sequence of `play_video` / `display_image` /
`cleanup` calls from the initial state in which every `os.killpg` call
succeeds, no visited state has both mode flags true or both process
handles held; and unconditionally, within each single call every
process-group kill precedes every spawn (the other mode is closed before
the new process is spawned). -/
theorem c2_exclusive_modes (ops : List MediaOp)
    (hk : ops.all killsOk = true) :
    (∀ t ∈ statesAlong initMedia ops,
      ¬(t.is_video_playing = true ∧ t.is_image_displayed = true) ∧
      ¬(t.video_process.isSome = true ∧ t.image_process.isSome = true)) ∧
    (∀ (op : MediaOp) (s : MediaState), killsThenSpawns (stepOp op s).2 = true) := by
  constructor
  · intro t ht
    refine exclusive_not_both t ?_
    exact exclusive_statesAlong ops initMedia
      (fun op hop => List.all_eq_true.mp hk op hop) (by decide) t ht
  · exact fun op s => stepOp_trace_ordered op s

/-- C2 witness: a concrete all-kills-succeed run visiting video and image
modes, on which the exclusion holds at the final state. -/
theorem c2_exclusive_modes_witness :
    ¬((runOps initMedia [MediaOp.opPlayVideo true true 1,
        MediaOp.opDisplayImage true true 2]).1.is_video_playing = true ∧
      (runOps initMedia [MediaOp.opPlayVideo true true 1,
        MediaOp.opDisplayImage true true 2]).1.is_image_displayed = true) :=
  ((c2_exclusive_modes [MediaOp.opPlayVideo true true 1,
      MediaOp.opDisplayImage true true 2] (by decide)).1
    (runOps initMedia [MediaOp.opPlayVideo true true 1,
        MediaOp.opDisplayImage true true 2]).1 (by decide)).1

/-- C6: calling `play_video` while the controller is in video mode (video
flag set and a video process handle held, and - modes being exclusive per
the `DisplayState` data model - the image mode not active) is a no-op: the
state is returned unchanged and no kill or spawn action is performed;
symmetrically for `display_image` while in image mode. -/
theorem c6_idempotent_active_mode (s : MediaState) (killOk spawnOk : Bool) (pid : Nat) :
    (s.is_video_playing = true → s.video_process.isSome = true →
      ¬(s.is_image_displayed = true ∧ s.image_process.isSome = true) →
      play_video killOk spawnOk pid s = (s, [])) ∧
    (s.is_image_displayed = true → s.image_process.isSome = true →
      ¬(s.is_video_playing = true ∧ s.video_process.isSome = true) →
      display_image killOk spawnOk pid s = (s, [])) := by
  rcases s with ⟨vp, ip, vb, ib⟩
  rcases vp with _ | vpid <;> rcases ip with _ | ipid <;>
    rcases vb with _ | _ <;> rcases ib with _ | _ <;>
    rcases spawnOk with _ | _ <;>
    simp [play_video, display_image, close_video, close_image]

/-- C6 witness: concrete no-op calls in each active mode. -/
theorem c6_idempotent_active_mode_witness :
    play_video true true 7 ⟨some 3, none, true, false⟩ =
      (⟨some 3, none, true, false⟩, []) ∧
    display_image false false 9 ⟨none, some 4, false, true⟩ =
      (⟨none, some 4, false, true⟩, []) :=
  ⟨(c6_idempotent_active_mode ⟨some 3, none, true, false⟩ true true 7).1
      rfl rfl (by decide),
   (c6_idempotent_active_mode ⟨none, some 4, false, true⟩ false false 9).2
      rfl rfl (by decide)⟩

/-- C9: when `subprocess.Popen` fails, `play_video` / `display_image`
behave exactly as the preceding close of the other mode (the exception is
caught, so the call still returns normally), the failed call leaves the
target mode's flag and handle unchanged and performs no spawn, and a
subsequent successful call does enter the target mode (the retry
succeeds). -/
theorem c9_spawn_failure_absorbed (killOk : Bool) (pid : Nat) (s : MediaState) :
    play_video killOk false pid s = close_image killOk s ∧
    display_image killOk false pid s = close_video killOk s ∧
    (play_video killOk false pid s).1.video_process = s.video_process ∧
    (play_video killOk false pid s).1.is_video_playing = s.is_video_playing ∧
    (display_image killOk false pid s).1.image_process = s.image_process ∧
    (display_image killOk false pid s).1.is_image_displayed = s.is_image_displayed ∧
    (play_video killOk false pid s).2.all isKill = true ∧
    (display_image killOk false pid s).2.all isKill = true ∧
    (play_video true true pid (play_video killOk false pid s).1).1.is_video_playing
      = true ∧
    (display_image true true pid (display_image killOk false pid s).1).1.is_image_displayed
      = true := by
  rcases s with ⟨vp, ip, vb, ib⟩
  rcases vp with _ | vpid <;> rcases ip with _ | ipid <;>
    rcases vb with _ | _ <;> rcases ib with _ | _ <;>
    rcases killOk with _ | _ <;>
    simp [play_video, display_image, close_video, close_image, isKill]

/-!
Orchestrator (`MotionMediaController`, `src/motion_media_controller.py:339-438`).

`motion_handler` (lines 358-371) is the registered motion callback;
`_handle_motion_after_timeout` (lines 373-384) is the body of the deferred
debounce check: the spawned thread captures `self.motion_start_time`
(`start_time = self.motion_start_time`), sleeps `motion_timeout` seconds,
and then commits only under `self.motion_detected and start_time ==
self.motion_start_time`.  The recorded onset timestamp thus plays the role
of the generation token of the spec's DebounceWindow.

The display calls the orchestrator makes are modelled as abstract
commands (`Cmd`); a separate interpreter (`applyCmd`) runs them against
the `MediaController` embedding with all process operations succeeding.
-/

/-- Orchestrator state: `self.motion_detected` and `self.motion_start_time`
(the generation token, recorded from `time.time()` at the onset edge). -/
structure Orch where
  motion_detected : Bool
  motion_start_time : Nat
deriving DecidableEq, Repr

/-- A display call issued by the orchestrator. -/
inductive Cmd
  | cmdPlayVideo
  | cmdShowImage
deriving DecidableEq, Repr

/-- `MotionMediaController.motion_handler` (lines 358-371).  Returns the
new state, the display calls made, and the captured generation of any
newly scheduled deferred check (`Thread(target=self._handle_motion_after_timeout)`).
`now` is the value `time.time()` returns at this call. -/
def motion_handler (st : Orch) (motion : Bool) (now : Nat) :
    Orch × List Cmd × List Nat :=
  if motion ≠ st.motion_detected then
    if motion then
      ({ motion_detected := true, motion_start_time := now }, [], [now])
    else
      ({ motion_detected := false, motion_start_time := st.motion_start_time },
        [Cmd.cmdPlayVideo], [])
  else (st, [], [])

/-- The commit point of `MotionMediaController._handle_motion_after_timeout`
(lines 373-384): after the sleep, `display_image` is called exactly when
motion is still asserted and the captured start time still equals the
orchestrator's current one. -/
def handle_motion_after_timeout (st : Orch) (captured : Nat) : List Cmd :=
  if st.motion_detected && (captured == st.motion_start_time) then
    [Cmd.cmdShowImage]
  else []

/-- An event delivered to the orchestrator: a motion report from the
monitor's callback, or a deferred check's debounce window elapsing. -/
inductive OrchEv
  | evReport (motion : Bool)
  | evFire (captured : Nat)
deriving DecidableEq, Repr

/-- Dispatch one timed orchestrator event. -/
def orchStep (st : Orch) (now : Nat) (e : OrchEv) : Orch × List Cmd × List Nat :=
  match e with
  | .evReport b => motion_handler st b now
  | .evFire c => (st, handle_motion_after_timeout st c, [])

/-- Run a timed event trace, concatenating display calls and scheduled
generations. -/
def runOrch (st : Orch) : List (Nat × OrchEv) → Orch × List Cmd × List Nat
  | [] => (st, [], [])
  | (t, e) :: rest =>
    let r := orchStep st t e
    let r2 := runOrch r.1 rest
    (r2.1, r.2.1 ++ r2.2.1, r.2.2 ++ r2.2.2)

/-- Interpret one display call against the `MediaController` embedding,
with kills and spawns succeeding (pid abstracted to 1). -/
def applyCmd (s : MediaState) : Cmd → MediaState
  | .cmdPlayVideo => (play_video true true 1 s).1
  | .cmdShowImage => (display_image true true 1 s).1

/-- All media states visited while interpreting a command list. -/
def applyCmds (s : MediaState) : List Cmd → List MediaState
  | [] => [s]
  | c :: rest => s :: applyCmds (applyCmd s c) rest

/-- The controller is in video mode: video playing with its handle held,
image mode fully inactive. -/
def videoMode (s : MediaState) : Bool :=
  s.is_video_playing && s.video_process.isSome &&
  !s.is_image_displayed && s.image_process.isNone

/-- The controller is in image mode: image displayed with its handle held,
video mode fully inactive. -/
def imageMode (s : MediaState) : Bool :=
  s.is_image_displayed && s.image_process.isSome &&
  !s.is_video_playing && s.video_process.isNone

lemma applyCmd_playVideo_videoMode (s : MediaState) (h : videoMode s = true) :
    applyCmd s Cmd.cmdPlayVideo = s := by
  rcases s with ⟨vp, ip, vb, ib⟩
  rcases vp with _ | vpid <;> rcases ip with _ | ipid <;>
    rcases vb with _ | _ <;> rcases ib with _ | _ <;>
    simp_all [videoMode, applyCmd, play_video, close_image]

lemma applyCmd_showImage_from_videoMode (s : MediaState) (h : videoMode s = true) :
    imageMode (applyCmd s Cmd.cmdShowImage) = true := by
  rcases s with ⟨vp, ip, vb, ib⟩
  rcases vp with _ | vpid <;> rcases ip with _ | ipid <;>
    rcases vb with _ | _ <;> rcases ib with _ | _ <;>
    simp_all [videoMode, imageMode, applyCmd, display_image, close_video, close_image]

lemma runOrch_noop_reports (st : Orch) (reports : List (Nat × Bool))
    (h : ∀ p ∈ reports, p.2 = st.motion_detected) :
    runOrch st (reports.map fun p => (p.1, OrchEv.evReport p.2)) = (st, [], []) := by
  induction reports with
  | nil => rfl
  | cons p rest ih =>
    have hp : p.2 = st.motion_detected := h p (List.mem_cons_self _ _)
    have hstep : orchStep st p.1 (OrchEv.evReport p.2) = (st, [], []) := by
      simp [orchStep, motion_handler, hp]
    simp only [List.map_cons, runOrch, hstep]
    simp [ih fun q hq => h q (List.mem_cons_of_mem _ hq)]

lemma runOrch_append (st : Orch) (l1 l2 : List (Nat × OrchEv)) :
    runOrch st (l1 ++ l2) =
      ((runOrch (runOrch st l1).1 l2).1,
       (runOrch st l1).2.1 ++ (runOrch (runOrch st l1).1 l2).2.1,
       (runOrch st l1).2.2 ++ (runOrch (runOrch st l1).1 l2).2.2) := by
  induction l1 generalizing st with
  | nil => simp [runOrch]
  | cons p rest ih =>
    rcases p with ⟨t, e⟩
    simp [runOrch, ih, List.append_assoc]

/-- C1: a deferred debounce check commits its effect (the `display_image`
call) exactly when, at firing time, the generation it captured at
scheduling still equals the orchestrator's current generation
(`motion_start_time`) and motion is still asserted; in particular it is a
no-op after a stop edge has cleared motion, and a no-op after a newer
onset edge has replaced the generation. -/
theorem c1_deferred_check_generation (st : Orch) (captured now : Nat) :
    (handle_motion_after_timeout st captured = [Cmd.cmdShowImage] ↔
      st.motion_detected = true ∧ captured = st.motion_start_time) ∧
    (¬(st.motion_detected = true ∧ captured = st.motion_start_time) →
      handle_motion_after_timeout st captured = []) ∧
    (handle_motion_after_timeout (motion_handler st false now).1 captured = []) ∧
    (st.motion_detected = false → captured ≠ now →
      handle_motion_after_timeout (motion_handler st true now).1 captured = []) := by
  rcases st with ⟨md, mst⟩
  rcases md with _ | _ <;> by_cases hc : captured = mst <;>
    simp_all [handle_motion_after_timeout, motion_handler]

/-- C1 witness: a stale check (motion cleared by a stop edge) and a check
whose generation was replaced by a newer onset are both no-ops. -/
theorem c1_deferred_check_generation_witness :
    handle_motion_after_timeout ⟨false, 5⟩ 5 = [] ∧
    handle_motion_after_timeout (motion_handler ⟨false, 0⟩ true 7).1 3 = [] ∧
    handle_motion_after_timeout ⟨true, 4⟩ 4 = [Cmd.cmdShowImage] :=
  ⟨(c1_deferred_check_generation ⟨false, 5⟩ 5 0).2.1 (by simp),
   (c1_deferred_check_generation ⟨false, 0⟩ 3 7).2.2.2 rfl (by decide),
   ((c1_deferred_check_generation ⟨true, 4⟩ 4 0).1).mpr (by simp)⟩

/-- C10: `MotionMediaController.motion_handler` ignores a motion report
equal to its recorded `motion_detected` value: for any sequence of
repeated identical reports, the state is unchanged, no display call is
made, and no debounce check is scheduled. -/
theorem c10_repeated_reports_noop (st : Orch) (reports : List (Nat × Bool))
    (h : ∀ p ∈ reports, p.2 = st.motion_detected) :
    runOrch st (reports.map fun p => (p.1, OrchEv.evReport p.2)) = (st, [], []) :=
  runOrch_noop_reports st reports h

/-- C10 witness: three identical motion-true reports to an orchestrator
already recording motion leave everything unchanged. -/
theorem c10_repeated_reports_noop_witness :
    runOrch ⟨true, 2⟩ [(3, OrchEv.evReport true), (4, OrchEv.evReport true),
      (5, OrchEv.evReport true)] = (⟨true, 2⟩, [], []) :=
  c10_repeated_reports_noop ⟨true, 2⟩ [(3, true), (4, true), (5, true)]
    (by intro p hp; fin_cases hp <;> rfl)

/-- The C3 scenario trace: onset at `t0`, stop at `t1`, and the deferred
check for generation `t0` firing when its window of length `T` elapses at
`t0 + T`. -/
def shortMotionTrace (t0 t1 T : Nat) : List (Nat × OrchEv) :=
  [(t0, OrchEv.evReport true), (t1, OrchEv.evReport false),
   (t0 + T, OrchEv.evFire t0)]

/-- C3: an onset edge followed by a stop edge before the debounce window
elapses never enters image mode: the only display call is the stop edge's
`play_video`, no `display_image` call is ever made, and a controller in
video mode stays in video mode at every point. -/
theorem c3_short_onset_no_image (t0 t1 T m0 : Nat) (hT : 0 < T)
    (h01 : t0 < t1) (h1 : t1 < t0 + T) :
    (runOrch ⟨false, m0⟩ (shortMotionTrace t0 t1 T)).2.1 = [Cmd.cmdPlayVideo] ∧
    Cmd.cmdShowImage ∉ (runOrch ⟨false, m0⟩ (shortMotionTrace t0 t1 T)).2.1 ∧
    (∀ s0 : MediaState, videoMode s0 = true →
      ∀ s ∈ applyCmds s0 (runOrch ⟨false, m0⟩ (shortMotionTrace t0 t1 T)).2.1,
        videoMode s = true) := by
  have hrun : (runOrch ⟨false, m0⟩ (shortMotionTrace t0 t1 T)).2.1
      = [Cmd.cmdPlayVideo] := by
    simp [shortMotionTrace, runOrch, orchStep, motion_handler,
      handle_motion_after_timeout]
  refine ⟨hrun, ?_, ?_⟩
  · rw [hrun]
    simp
  · intro s0 hs0 s hs
    rw [hrun] at hs
    simp only [applyCmds, List.mem_cons, List.mem_singleton,
      List.not_mem_nil, or_false] at hs
    rcases hs with rfl | rfl
    · exact hs0
    · rw [applyCmd_playVideo_videoMode s0 hs0]
      exact hs0

/-- C3 witness: the spec scenario, onset at t=0, stop at t=1, window 3s. -/
theorem c3_short_onset_no_image_witness :
    Cmd.cmdShowImage ∉ (runOrch ⟨false, 0⟩ (shortMotionTrace 0 1 3)).2.1 :=
  (c3_short_onset_no_image 0 1 3 0 (by decide) (by decide) (by decide)).2.1

/-- The C4 scenario trace: onset at `t0`, arbitrary further motion-true
reports at times `mids` (motion sustained, no stop edge), and the deferred
check for generation `t0` firing at `t0 + T`. -/
def sustainedTrace (t0 T : Nat) (mids : List Nat) : List (Nat × OrchEv) :=
  (t0, OrchEv.evReport true) ::
    (mids.map fun t => (t, OrchEv.evReport true)) ++ [(t0 + T, OrchEv.evFire t0)]

/-- C4: an onset edge sustained through the whole debounce window with no
intervening stop edge makes exactly one `display_image` call (and no
other display call), and that call moves a controller in video mode to
image mode. -/
theorem c4_sustained_onset_one_image (t0 T m0 : Nat) (mids : List Nat)
    (hT : 0 < T) (hmids : ∀ t ∈ mids, t0 < t ∧ t < t0 + T) :
    (runOrch ⟨false, m0⟩ (sustainedTrace t0 T mids)).2.1 = [Cmd.cmdShowImage] ∧
    ((runOrch ⟨false, m0⟩ (sustainedTrace t0 T mids)).2.1.count Cmd.cmdShowImage
      = 1) ∧
    (∀ s0 : MediaState, videoMode s0 = true →
      imageMode (applyCmd s0 Cmd.cmdShowImage) = true) := by
  have hmid : runOrch ⟨true, t0⟩ (mids.map fun t => (t, OrchEv.evReport true))
      = (⟨true, t0⟩, [], []) := by
    have := runOrch_noop_reports ⟨true, t0⟩ (mids.map fun t => (t, true))
      (by intro p hp; simp only [List.mem_map] at hp; obtain ⟨t, _, rfl⟩ := hp; rfl)
    simpa [List.map_map, Function.comp] using this
  have hrun : (runOrch ⟨false, m0⟩ (sustainedTrace t0 T mids)).2.1
      = [Cmd.cmdShowImage] := by
    have hstep1 : motion_handler ⟨false, m0⟩ true t0 = (⟨true, t0⟩, [], [t0]) := by
      simp [motion_handler]
    have hfire : handle_motion_after_timeout ⟨true, t0⟩ t0 = [Cmd.cmdShowImage] := by
      simp [handle_motion_after_timeout]
    simp [sustainedTrace, runOrch, orchStep, hstep1, runOrch_append, hmid, hfire]
  refine ⟨hrun, ?_, ?_⟩
  · rw [hrun]
    rfl
  · exact fun s0 hs0 => applyCmd_showImage_from_videoMode s0 hs0

/-- C4 witness: the spec scenario, onset at t=0 with window 3s, sustained
by reports at t=1 and t=2; exactly one image transition. -/
theorem c4_sustained_onset_one_image_witness :
    (runOrch ⟨false, 0⟩ (sustainedTrace 0 3 [1, 2])).2.1 = [Cmd.cmdShowImage] :=
  (c4_sustained_onset_one_image 0 3 0 [1, 2] (by decide)
    (by intro t ht; fin_cases ht <;> exact ⟨by decide, by decide⟩)).1

/-!
Serial monitor (`ESP32Monitor._process_data`).

A received line, abstracted to the cases the two parsers distinguish:
a JSON object with a boolean `motion` field, a JSON object without one,
a non-JSON line containing the marker `"Motion detected!"`, a non-JSON
line containing `"Motion stopped"` (and not the detected marker, which is
checked first), and anything else.
-/

/-- One parsed serial line, by the case analysis of `_process_data`. -/
inductive SerialLine
  | jsonMotion (motion : Bool)
  | jsonOther
  | textDetected
  | textStopped
  | otherLine
deriving DecidableEq, Repr

/-- The motion value a line reports, if any. -/
def lineMotionValue : SerialLine → Option Bool
  | .jsonMotion b => some b
  | .textDetected => some true
  | .textStopped => some false
  | _ => none

/-- `ESP32Monitor._process_data` of `src/esp32_serial.py:53-87`: keeps
`self.motion_detected` and invokes the callback only when the parsed
value differs from it.  Returns the new stored value and the callback
invocations (in order). -/
def serialProcessData (motion_detected : Bool) (l : SerialLine) :
    Bool × List Bool :=
  match l with
  | .jsonMotion b =>
    if motion_detected ≠ b then (b, [b]) else (motion_detected, [])
  | .jsonOther => (motion_detected, [])
  | .textDetected =>
    if motion_detected = false then (true, [true]) else (motion_detected, [])
  | .textStopped =>
    if motion_detected = true then (false, [false]) else (motion_detected, [])
  | .otherLine => (motion_detected, [])

/-- Feed a sequence of lines through `esp32_serial.py`'s `_process_data`. -/
def runSerialMonitor (st : Bool) : List SerialLine → Bool × List Bool
  | [] => (st, [])
  | l :: rest =>
    let r := serialProcessData st l
    let r2 := runSerialMonitor r.1 rest
    (r2.1, r.2 ++ r2.2)

/-- `ESP32Monitor._process_data` of `src/motion_media_controller.py:107-127`:
keeps no last-motion state and invokes the callback on every line that
reports a motion value. -/
def mmcProcessData : SerialLine → List Bool
  | .jsonMotion b => [b]
  | .jsonOther => []
  | .textDetected => [true]
  | .textStopped => [false]
  | .otherLine => []

/-- Feed a sequence of lines through `motion_media_controller.py`'s
`_process_data`, collecting the callback invocations. -/
def runMmcMonitor : List SerialLine → List Bool
  | [] => []
  | l :: rest => mmcProcessData l ++ runMmcMonitor rest

lemma serialProcessData_same (v : Bool) (l : SerialLine)
    (h : lineMotionValue l = some v) : serialProcessData v l = (v, []) := by
  cases l <;> simp_all [lineMotionValue, serialProcessData]

lemma serialProcessData_diff (st v : Bool) (l : SerialLine)
    (h : lineMotionValue l = some v) (hne : st ≠ v) :
    serialProcessData st l = (v, [v]) := by
  cases l <;> cases st <;> cases v <;>
    simp_all [lineMotionValue, serialProcessData]

lemma runSerialMonitor_same (v : Bool) (lines : List SerialLine)
    (h : ∀ l ∈ lines, lineMotionValue l = some v) :
    runSerialMonitor v lines = (v, []) := by
  induction lines with
  | nil => rfl
  | cons l rest ih =>
    have h1 := serialProcessData_same v l (h l (List.mem_cons_self _ _))
    have h2 := ih fun x hx => h x (List.mem_cons_of_mem _ hx)
    simp [runSerialMonitor, h1, h2]

/-- C5 (counterexample to the claim as stated): the debounced variant's
monitor (`motion_media_controller.py:107-127`) invokes the callback on
every parsed motion line, so two lines reporting the same unchanged value
produce two invocations, not at most one. -/
theorem c5_counterexample_level_triggered :
    runMmcMonitor [SerialLine.jsonMotion true, SerialLine.jsonMotion true]
      = [true, true] ∧
    ¬((runMmcMonitor [SerialLine.jsonMotion true,
        SerialLine.jsonMotion true]).length ≤ 1) := by
  decide

/-- C5 (amended): the split-file variant's monitor (`esp32_serial.py`)
is edge-triggered - a run of lines all reporting one unchanged motion
value yields at most one callback invocation - while the debounced
variant's monitor invokes the callback once per motion-reporting line
(edge filtering there happens downstream, in the orchestrator's
`motion_handler`). -/
theorem c5_edge_triggered_serial_monitor (st v : Bool) (lines : List SerialLine)
    (h : ∀ l ∈ lines, lineMotionValue l = some v) :
    (runSerialMonitor st lines).2.length ≤ 1 ∧
    (runMmcMonitor lines).length = lines.length := by
  constructor
  · cases lines with
    | nil => simp [runSerialMonitor]
    | cons l rest =>
      have hl := h l (List.mem_cons_self _ _)
      have hrest : ∀ x ∈ rest, lineMotionValue x = some v :=
        fun x hx => h x (List.mem_cons_of_mem _ hx)
      by_cases hsv : st = v
      · subst hsv
        simp [runSerialMonitor_same st (l :: rest) h]
      · have h1 := serialProcessData_diff st v l hl hsv
        have h2 := runSerialMonitor_same v rest hrest
        simp [runSerialMonitor, h1, h2]
  · induction lines with
    | nil => rfl
    | cons l rest ih =>
      have hl := h l (List.mem_cons_self _ _)
      have h2 := ih fun x hx => h x (List.mem_cons_of_mem _ hx)
      cases l <;> simp_all [runMmcMonitor, mmcProcessData, lineMotionValue]

/-- C5 witness: two identical motion-true lines give one invocation
through the edge-triggered monitor and two through the level-triggered
one. -/
theorem c5_edge_triggered_serial_monitor_witness :
    (runSerialMonitor false [SerialLine.jsonMotion true,
      SerialLine.jsonMotion true]).2.length ≤ 1 ∧
    (runMmcMonitor [SerialLine.jsonMotion true,
      SerialLine.jsonMotion true]).length = 2 :=
  c5_edge_triggered_serial_monitor false true
    [SerialLine.jsonMotion true, SerialLine.jsonMotion true]
    (by intro l hl; fin_cases hl <;> rfl)

/-!
Remote reporter (`BrightnessAPI` in `src/api_service.py:10-67`,
`APIService` in `src/motion_media_controller.py:272-336`; the two bodies
are identical).  `requests.post` is abstracted to a `NetResult`: an HTTP
response with some status code, or a raised `requests.RequestException`.
-/

/-- Outcome of the `requests.post` call. -/
inductive NetResult
  | response (status : Nat)
  | transportError
deriving DecidableEq, Repr

/-- `update_brightness` (`api_service.py:19-34`): posts the payload;
on status 200 stores `is_on` as `last_reported_state` and returns True,
on any other status or on a `RequestException` returns False without
touching `last_reported_state`.  Result: (new last value, return value). -/
def update_brightness (last : Option Bool) (is_on : Bool) (r : NetResult) :
    Option Bool × Bool :=
  match r with
  | .response status =>
    if status == 200 then (some is_on, true) else (last, false)
  | .transportError => (last, false)

/-- One iteration of `_update_loop` (`api_service.py:51-67`): reads the
current state and calls `update_brightness` exactly when nothing was ever
reported or the value changed.  Result: (new last value, whether a POST
was issued this cycle). -/
def update_cycle (last : Option Bool) (current : Bool) (r : NetResult) :
    Option Bool × Bool :=
  match last with
  | none => ((update_brightness none current r).1, true)
  | some b =>
    if current ≠ b then ((update_brightness (some b) current r).1, true)
    else (some b, false)

/-- Iterate `_update_loop` over a list of (polled state, network outcome)
pairs, counting issued POSTs. -/
def run_update_loop (last : Option Bool) :
    List (Bool × NetResult) → Option Bool × Nat
  | [] => (last, 0)
  | (cur, r) :: rest =>
    let c := update_cycle last cur r
    let c2 := run_update_loop c.1 rest
    (c2.1, (if c.2 then 1 else 0) + c2.2)

/-- C7: a poll cycle issues a network update exactly when nothing has ever
been successfully reported or the polled state differs from the last
successfully reported value; and after a successful report of `v`, any
run of polls all reading `v` issues no further network call and leaves
the last-reported value at `v`. -/
theorem c7_report_only_on_change (last : Option Bool) (current : Bool)
    (r : NetResult) :
    ((update_cycle last current r).2 = true ↔
      (last = none ∨ last ≠ some current)) ∧
    (∀ (v : Bool) (polls : List (Bool × NetResult)), (∀ p ∈ polls, p.1 = v) →
      run_update_loop (some v) polls = (some v, 0)) := by
  constructor
  · rcases last with _ | b
    · simp [update_cycle]
    · by_cases hc : current = b <;> simp_all [update_cycle, eq_comm]
  · intro v polls hp
    induction polls with
    | nil => rfl
    | cons p rest ih =>
      rcases p with ⟨cur, r2⟩
      have hcur : cur = v := hp (cur, r2) (List.mem_cons_self _ _)
      subst hcur
      have hc : update_cycle (some cur) cur r2 = (some cur, false) := by
        simp [update_cycle]
      simp [run_update_loop, hc, ih fun q hq => hp q (List.mem_cons_of_mem _ hq)]

/-- C7 witness: after a successful report of `true`, two more polls
reading `true` (one getting a 500, one a transport error, neither of
which is even attempted) issue zero network calls. -/
theorem c7_report_only_on_change_witness :
    run_update_loop (some true)
      [(true, NetResult.response 500), (true, NetResult.transportError)]
      = (some true, 0) :=
  (c7_report_only_on_change (some true) true (NetResult.response 200)).2
    true [(true, NetResult.response 500), (true, NetResult.transportError)]
    (by intro p hp; fin_cases hp <;> rfl)

/-- C8: a reporting attempt fails exactly when the outcome is not an HTTP
200 response; a failed attempt leaves the last-reported value unchanged
and a successful one advances it to the sent value; and a cycle that
attempted a value and failed attempts the same value again on the next
cycle. -/
theorem c8_failed_report_retries (last : Option Bool) (is_on : Bool)
    (r : NetResult) :
    ((update_brightness last is_on r).2 = false →
      (update_brightness last is_on r).1 = last) ∧
    ((update_brightness last is_on r).2 = true ↔ r = NetResult.response 200) ∧
    ((update_brightness last is_on r).2 = true →
      (update_brightness last is_on r).1 = some is_on) ∧
    (∀ r2 : NetResult, (update_cycle last is_on r).2 = true →
      (update_brightness last is_on r).2 = false →
      (update_cycle (update_cycle last is_on r).1 is_on r2).2 = true) := by
  rcases r with status | _
  · by_cases hs : status = 200
    · subst hs
      refine ⟨by simp [update_brightness], by simp [update_brightness], ?_, ?_⟩
      · simp [update_brightness]
      · intro r2 _ hfail
        simp [update_brightness] at hfail
    · rcases last with _ | b
      · refine ⟨by simp [update_brightness, hs], ?_, ?_, ?_⟩
        · simp [update_brightness, hs]
        · simp [update_brightness, hs]
        · intro r2 _ _
          simp [update_cycle, update_brightness, hs]
      · refine ⟨by simp [update_brightness, hs], ?_, ?_, ?_⟩
        · simp [update_brightness, hs]
        · simp [update_brightness, hs]
        · intro r2 hcyc _
          by_cases hc : is_on = b
          · subst hc
            simp [update_cycle] at hcyc
          · simp_all [update_cycle, update_brightness, hs]
  · rcases last with _ | b
    · refine ⟨by simp [update_brightness], by simp [update_brightness], ?_, ?_⟩
      · simp [update_brightness]
      · intro r2 _ _
        simp [update_cycle, update_brightness]
    · refine ⟨by simp [update_brightness], by simp [update_brightness], ?_, ?_⟩
      · simp [update_brightness]
      · intro r2 hcyc _
        by_cases hc : is_on = b
        · subst hc
          simp [update_cycle] at hcyc
        · simp_all [update_cycle, update_brightness]

/-- C8 witness: a 503 and a transport error both leave the pending value
in place, and the cycle after a failed attempt attempts again. -/
theorem c8_failed_report_retries_witness :
    (update_brightness (some false) true (NetResult.response 503)).1
      = some false ∧
    (update_cycle (update_cycle (some false) true NetResult.transportError).1
      true (NetResult.response 200)).2 = true :=
  ⟨(c8_failed_report_retries (some false) true (NetResult.response 503)).1
      (by decide),
   (c8_failed_report_retries (some false) true NetResult.transportError).2.2.2
      (NetResult.response 200) (by decide) (by decide)⟩
